import Mathlib

/-!
Shallow embedding of the RAG_Eval repository's service layer
(`app/services/hybrid_rag_service.py`, `dense_rag_service.py`,
`hyde_service.py`, `qdrantclient.py`) and proofs about it.

External effects (embedding models, the Qdrant client, the LLM) are modelled
as oracle parameters; an exception raised by an external call is modelled as
`Option`/`Except` failure.
-/

namespace RAGEval

/-- A langchain `Document` chunk: `page_content` plus a `metadata` map.
The content and metadata types are abstract. -/
structure Document (γ μ : Type) where
  page_content : γ
  metadata : μ
  deriving DecidableEq

/-- A Qdrant `PointStruct` as assembled by `index_hybrid_collection`:
the two named vectors `dense` and `sparse` plus the payload
(`content`, `metadata`).  The generated uuid carries no information and
is omitted. -/
structure PointStruct (γ μ Dv Sv : Type) where
  dense : Dv
  sparse : Sv
  content : γ
  metadata : μ
  deriving DecidableEq

/-- Python slice `l[i : i + n]`. -/
def pySlice (l : List α) (i n : Nat) : List α := (l.drop i).take n

/-- `[chunks[i : i + batch_size] for i in range(0, len(chunks), batch_size)]`
from `index_hybrid_collection` (hybrid_rag_service.py line 34).
`range(0, n, step)` for `step > 0` has `(n + step - 1) / step` elements
`0, step, 2*step, ...`; `batch_size = 0` raises `ValueError` in Python and
is outside this model. -/
def batchedChunks (chunks : List α) (batch_size : Nat) : List (List α) :=
  (List.range' 0 ((chunks.length + batch_size - 1) / batch_size) batch_size).map
    (fun i => pySlice chunks i batch_size)

theorem batchedChunks_nil (bs : Nat) : batchedChunks ([] : List α) bs = [] := by
  unfold batchedChunks
  rcases Nat.eq_zero_or_pos bs with h | h
  · subst h; simp
  · have : (0 + bs - 1) / bs = 0 := Nat.div_eq_of_lt (by omega)
    simp only [List.length_nil, this, List.range'_zero, List.map_nil]

theorem ceil_div_step (n bs : Nat) (hn : 0 < n) (hbs : 0 < bs) :
    (n + bs - 1) / bs = (n - bs + bs - 1) / bs + 1 := by
  rcases Nat.le_total bs n with h | h
  · have h1 : n - bs + bs = n := Nat.sub_add_cancel h
    have h2 : n + bs - 1 = (n - bs + bs - 1) + bs := by omega
    rw [h2, Nat.add_div_right _ hbs]
  · have h1 : n - bs = 0 := by omega
    have h2 : n + bs - 1 = (n - 1) + bs := by omega
    rw [h1, h2, Nat.add_div_right _ hbs, Nat.zero_add,
      Nat.div_eq_of_lt (by omega), Nat.div_eq_of_lt (by omega)]

theorem slice_shift (l : List α) (bs : Nat) :
    ∀ (k s : Nat),
      (List.range' (s + bs) k bs).map (fun i => pySlice l i bs) =
        (List.range' s k bs).map (fun i => pySlice (l.drop bs) i bs) := by
  intro k
  induction k with
  | zero => intro s; simp
  | succ k ih =>
    intro s
    simp only [List.range'_succ, List.map_cons]
    congr 1
    · show pySlice l (s + bs) bs = pySlice (l.drop bs) s bs
      unfold pySlice
      rw [List.drop_drop, Nat.add_comm s bs]
    · exact ih (s + bs)

theorem batchedChunks_cons (l : List α) (bs : Nat) (hl : l ≠ []) (hbs : 0 < bs) :
    batchedChunks l bs = l.take bs :: batchedChunks (l.drop bs) bs := by
  have hn : 0 < l.length := List.length_pos.mpr hl
  unfold batchedChunks
  rw [ceil_div_step l.length bs hn hbs]
  rw [List.range'_succ, List.map_cons]
  have hhead : pySlice l 0 bs = l.take bs := by
    unfold pySlice; rw [List.drop_zero]
  rw [hhead, List.length_drop]
  congr 1
  exact slice_shift l bs _ 0

/-- Induction principle matching the recursion structure of `batchedChunks`
for a positive batch size. -/
theorem batchedChunks_induction {bs : Nat} (hbs : 0 < bs) {P : List α → Prop}
    (h0 : P []) (h1 : ∀ l, l ≠ [] → P (l.drop bs) → P l) : ∀ l, P l := by
  intro l
  generalize hn : l.length = n
  induction n using Nat.strong_induction_on generalizing l with
  | _ n ih =>
    rcases eq_or_ne l [] with h | hl
    · subst h; exact h0
    · subst hn
      refine h1 l hl (ih (l.drop bs).length ?_ _ rfl)
      rw [List.length_drop]
      have hpos : 0 < l.length := List.length_pos.mpr hl
      omega

theorem flatten_batchedChunks (l : List α) (bs : Nat) (hbs : 0 < bs) :
    (batchedChunks l bs).flatten = l := by
  induction l using batchedChunks_induction hbs with
  | h0 => rw [batchedChunks_nil]; rfl
  | h1 l hl ih =>
    rw [batchedChunks_cons l bs hl hbs, List.flatten_cons, ih,
      List.take_append_drop]

theorem batchedChunks_ne_nil (l : List α) (bs : Nat) (hl : l ≠ []) (hbs : 0 < bs) :
    batchedChunks l bs ≠ [] := by
  rw [batchedChunks_cons l bs hl hbs]
  exact List.cons_ne_nil _ _

theorem batchedChunks_dropLast_length (l : List α) (bs : Nat) (hbs : 0 < bs) :
    ∀ b ∈ (batchedChunks l bs).dropLast, b.length = bs := by
  induction l using batchedChunks_induction hbs with
  | h0 => rw [batchedChunks_nil]; intro b hb; simp at hb
  | h1 l hl ih =>
    rw [batchedChunks_cons l bs hl hbs]
    rcases eq_or_ne (l.drop bs) [] with hd | hd
    · rw [hd, batchedChunks_nil]
      intro b hb; simp at hb
    · intro b hb
      rw [List.dropLast_cons_of_ne_nil (batchedChunks_ne_nil _ bs hd hbs)] at hb
      rcases List.mem_cons.mp hb with hb | hb
      · subst hb
        have hlen : bs < l.length := by
          have : 0 < (l.drop bs).length := List.length_pos.mpr hd
          rw [List.length_drop] at this
          omega
        rw [List.length_take]
        omega
      · exact ih b hb

theorem batchedChunks_getLast?_length (l : List α) (bs : Nat) (hbs : 0 < bs) :
    ∀ b, (batchedChunks l bs).getLast? = some b →
      b.length = if l.length % bs = 0 then bs else l.length % bs := by
  induction l using batchedChunks_induction hbs with
  | h0 => rw [batchedChunks_nil]; intro b hb; simp at hb
  | h1 l hl ih =>
    intro b hb
    rw [batchedChunks_cons l bs hl hbs] at hb
    rcases eq_or_ne (l.drop bs) [] with hd | hd
    · -- single (last) batch: l.length ≤ bs
      have hle : l.length ≤ bs := by
        have : (l.drop bs).length = 0 := by rw [hd]; rfl
        rw [List.length_drop] at this
        omega
      have hpos : 0 < l.length := List.length_pos.mpr hl
      rw [hd, batchedChunks_nil, List.getLast?_singleton] at hb
      have hb' : b = l.take bs := by
        injection hb with hb'; exact hb'.symm
      subst hb'
      rw [List.length_take bs l]
      rcases eq_or_ne l.length bs with he | hne
      · rw [he]; simp
      · have hlt : l.length < bs := by omega
        rw [Nat.mod_eq_of_lt hlt, if_neg (by omega)]
        exact min_eq_right hle
    · obtain ⟨c, L, hL⟩ :=
        List.exists_cons_of_ne_nil (batchedChunks_ne_nil _ bs hd hbs)
      rw [hL, List.getLast?_cons_cons] at hb
      have hrec := ih b (by rw [hL]; exact hb)
      rw [hrec, List.length_drop]
      have hlt : bs < l.length := by
        have : 0 < (l.drop bs).length := List.length_pos.mpr hd
        rw [List.length_drop] at this
        omega
      have hmod : (l.length - bs) % bs = l.length % bs := by
        conv_rhs => rw [show l.length = l.length - bs + bs by omega]
        rw [Nat.add_mod_right]
      rw [hmod]

/-- Claim C2: for every chunk list and every positive `batch_size`, the batch
partition built by `index_hybrid_collection` preserves the input order and
places every chunk in exactly one batch (its concatenation is the input),
every batch before the last has length `batch_size`, and the last batch has
length `len(chunks) % batch_size` (or `batch_size` when the length is evenly
divisible). -/
theorem batch_partition_correct (l : List α) (bs : Nat) (hbs : 0 < bs) :
    (batchedChunks l bs).flatten = l ∧
      (∀ b ∈ (batchedChunks l bs).dropLast, b.length = bs) ∧
      (∀ b, (batchedChunks l bs).getLast? = some b →
        b.length = if l.length % bs = 0 then bs else l.length % bs) :=
  ⟨flatten_batchedChunks l bs hbs, batchedChunks_dropLast_length l bs hbs,
    batchedChunks_getLast?_length l bs hbs⟩

/-- Witness for C2 at a concrete input: 5 chunks with batch size 2 give
batches [[0, 1], [2, 3], [4]]. -/
theorem batch_partition_correct_witness :
    (0 : Nat) < 2 ∧
      ((batchedChunks [0, 1, 2, 3, 4] 2).flatten = [0, 1, 2, 3, 4] ∧
        (∀ b ∈ (batchedChunks [0, 1, 2, 3, 4] 2).dropLast, b.length = 2) ∧
        (∀ b, (batchedChunks [0, 1, 2, 3, 4] 2).getLast? = some b →
          b.length =
            if ([0, 1, 2, 3, 4] : List Nat).length % 2 = 0 then 2
            else ([0, 1, 2, 3, 4] : List Nat).length % 2)) :=
  ⟨by decide, batch_partition_correct [0, 1, 2, 3, 4] 2 (by decide)⟩

/-! ### The hybrid indexing pipeline (`HybridRagService.index_hybrid_collection`)

The dense and sparse embedding calls are oracles `dE`/`sE`; `none` models the
call raising an exception (the service methods `create_dense_vector` and
`create_sparse_vector` re-raise any exception of the underlying model, and
the indexing loop catches it and falls back to `None`).  `upload` models
`client.upload_points`; `Except.error` models that call raising, which is
caught by the outer `try` of `index_hybrid_collection`. -/

/-- Inner-loop body for one document (hybrid_rag_service.py lines 40-65):
the point is built only when both embeddings are present; its vector map
pairs both vectors and its payload carries the content and metadata. -/
def mkPoint (dE : γ → Option Dv) (sE : γ → Option Sv) (doc : Document γ μ) :
    Option (PointStruct γ μ Dv Sv) :=
  match dE doc.page_content, sE doc.page_content with
  | some d, some s => some ⟨d, s, doc.page_content, doc.metadata⟩
  | _, _ => none

/-- The `points` list assembled for one batch. -/
def batchPoints (dE : γ → Option Dv) (sE : γ → Option Sv)
    (batch : List (Document γ μ)) : List (PointStruct γ μ Dv Sv) :=
  batch.filterMap (mkPoint dE sE)

/-- How many documents of one batch are skipped (counted into
`invalid_chunks`) because at least one embedding failed. -/
def batchInvalid (dE : γ → Option Dv) (sE : γ → Option Sv)
    (batch : List (Document γ μ)) : Nat :=
  batch.countP (fun doc => (mkPoint dE sE doc).isNone)

/-- Observable outcome of one `index_hybrid_collection` call:
the returned boolean, the argument lists of the successful
`upload_points` calls in order, the final `invalid_chunks` counter, how many
batches the loop entered, and whether an exception reached the outer
`except` handler. -/
structure IndexOutcome (γ μ Dv Sv : Type) where
  success : Bool
  uploads : List (List (PointStruct γ μ Dv Sv))
  invalid_chunks : Nat
  processed_batches : Nat
  raised : Bool
  deriving DecidableEq

/-- The batch loop of `index_hybrid_collection` (lines 38-73): per batch,
build the surviving points and count the skipped documents; upload
non-empty point lists; an upload exception aborts the loop and is caught by
the outer handler, which makes the call return `False`. -/
def indexLoop (dE : γ → Option Dv) (sE : γ → Option Sv)
    (upload : List (PointStruct γ μ Dv Sv) → Except ε Unit) :
    List (List (Document γ μ)) → Nat → List (List (PointStruct γ μ Dv Sv)) →
      Nat → IndexOutcome γ μ Dv Sv
  | [], invalid, ups, processed => ⟨invalid == 0, ups, invalid, processed, false⟩
  | batch :: rest, invalid, ups, processed =>
    let pts := batchPoints dE sE batch
    let invalid' := invalid + batchInvalid dE sE batch
    if pts.isEmpty then
      indexLoop dE sE upload rest invalid' ups (processed + 1)
    else
      match upload pts with
      | Except.ok _ =>
        indexLoop dE sE upload rest invalid' (ups ++ [pts]) (processed + 1)
      | Except.error _ => ⟨false, ups, invalid', processed + 1, true⟩

/-- `HybridRagService.index_hybrid_collection` (lines 23-76): batches the
chunks and runs the loop with `invalid_chunks = 0`.  `batch_size = 0`
raises `ValueError` inside `range` in Python and is outside the model. -/
def index_hybrid_collection (dE : γ → Option Dv) (sE : γ → Option Sv)
    (upload : List (PointStruct γ μ Dv Sv) → Except ε Unit)
    (chunks : List (Document γ μ)) (batch_size : Nat) :
    IndexOutcome γ μ Dv Sv :=
  indexLoop dE sE upload (batchedChunks chunks batch_size) 0 [] 0

/-- Total invalid count contributed by a batch list. -/
def invalidSum (dE : γ → Option Dv) (sE : γ → Option Sv)
    (bl : List (List (Document γ μ))) : Nat :=
  (bl.map (batchInvalid dE sE)).sum

/-- Upload-call arguments contributed by a batch list when every upload
call succeeds: the non-empty per-batch point lists, in order. -/
def uploadsOf (dE : γ → Option Dv) (sE : γ → Option Sv)
    (bl : List (List (Document γ μ))) : List (List (PointStruct γ μ Dv Sv)) :=
  (bl.map (batchPoints dE sE)).filter (fun pts => !pts.isEmpty)

theorem indexLoop_cons_empty {dE : γ → Option Dv} {sE : γ → Option Sv}
    {upload : List (PointStruct γ μ Dv Sv) → Except ε Unit}
    {batch : List (Document γ μ)} (h : batchPoints dE sE batch = [])
    (rest : List (List (Document γ μ))) (inv : Nat)
    (ups : List (List (PointStruct γ μ Dv Sv))) (n : Nat) :
    indexLoop dE sE upload (batch :: rest) inv ups n =
      indexLoop dE sE upload rest (inv + batchInvalid dE sE batch) ups (n + 1) := by
  simp [indexLoop, h]

theorem indexLoop_cons_ok {dE : γ → Option Dv} {sE : γ → Option Sv}
    {upload : List (PointStruct γ μ Dv Sv) → Except ε Unit}
    {batch : List (Document γ μ)} {u : Unit}
    (h : batchPoints dE sE batch ≠ [])
    (hok : upload (batchPoints dE sE batch) = Except.ok u)
    (rest : List (List (Document γ μ))) (inv : Nat)
    (ups : List (List (PointStruct γ μ Dv Sv))) (n : Nat) :
    indexLoop dE sE upload (batch :: rest) inv ups n =
      indexLoop dE sE upload rest (inv + batchInvalid dE sE batch)
        (ups ++ [batchPoints dE sE batch]) (n + 1) := by
  have hne : (batchPoints dE sE batch).isEmpty = false := by
    simpa [List.isEmpty_iff] using h
  simp [indexLoop, hne, hok]

theorem indexLoop_cons_error {dE : γ → Option Dv} {sE : γ → Option Sv}
    {upload : List (PointStruct γ μ Dv Sv) → Except ε Unit}
    {batch : List (Document γ μ)} {e : ε}
    (h : batchPoints dE sE batch ≠ [])
    (herr : upload (batchPoints dE sE batch) = Except.error e)
    (rest : List (List (Document γ μ))) (inv : Nat)
    (ups : List (List (PointStruct γ μ Dv Sv))) (n : Nat) :
    indexLoop dE sE upload (batch :: rest) inv ups n =
      ⟨false, ups, inv + batchInvalid dE sE batch, n + 1, true⟩ := by
  have hne : (batchPoints dE sE batch).isEmpty = false := by
    simpa [List.isEmpty_iff] using h
  simp [indexLoop, hne, herr]

theorem invalidSum_cons (dE : γ → Option Dv) (sE : γ → Option Sv)
    (b : List (Document γ μ)) (bl : List (List (Document γ μ))) :
    invalidSum dE sE (b :: bl) = batchInvalid dE sE b + invalidSum dE sE bl := by
  simp [invalidSum]

theorem uploadsOf_cons_empty {dE : γ → Option Dv} {sE : γ → Option Sv}
    {b : List (Document γ μ)} (h : batchPoints dE sE b = [])
    (bl : List (List (Document γ μ))) :
    uploadsOf dE sE (b :: bl) = uploadsOf dE sE bl := by
  simp [uploadsOf, List.filter_cons, h]

theorem uploadsOf_cons_ne {dE : γ → Option Dv} {sE : γ → Option Sv}
    {b : List (Document γ μ)} (h : batchPoints dE sE b ≠ [])
    (bl : List (List (Document γ μ))) :
    uploadsOf dE sE (b :: bl) =
      batchPoints dE sE b :: uploadsOf dE sE bl := by
  have hne : (batchPoints dE sE b).isEmpty = false := by
    simpa [List.isEmpty_iff] using h
  simp [uploadsOf, List.filter_cons, hne]

/-- A run of the batch loop in which no upload call raised produces the full
accumulated outcome. -/
theorem indexLoop_completed {dE : γ → Option Dv} {sE : γ → Option Sv}
    {upload : List (PointStruct γ μ Dv Sv) → Except ε Unit} :
    ∀ (bl : List (List (Document γ μ))) (inv : Nat)
      (ups : List (List (PointStruct γ μ Dv Sv))) (n : Nat),
      (indexLoop dE sE upload bl inv ups n).raised = false →
      indexLoop dE sE upload bl inv ups n =
        ⟨(inv + invalidSum dE sE bl) == 0, ups ++ uploadsOf dE sE bl,
          inv + invalidSum dE sE bl, n + bl.length, false⟩ := by
  intro bl
  induction bl with
  | nil =>
    intro inv ups n _
    simp [indexLoop, invalidSum, uploadsOf]
  | cons b bl ih =>
    intro inv ups n hr
    rcases eq_or_ne (batchPoints dE sE b) [] with hb | hb
    · rw [indexLoop_cons_empty hb] at hr ⊢
      rw [ih _ _ _ hr, invalidSum_cons, uploadsOf_cons_empty hb]
      simp [Nat.add_assoc, Nat.add_comm, Nat.add_left_comm]
    · cases hu : upload (batchPoints dE sE b) with
      | ok u =>
        rw [indexLoop_cons_ok hb hu] at hr ⊢
        rw [ih _ _ _ hr, invalidSum_cons, uploadsOf_cons_ne hb]
        simp [Nat.add_assoc, Nat.add_comm, Nat.add_left_comm]
      | error e =>
        rw [indexLoop_cons_error hb hu] at hr
        simp at hr

/-- When every upload call succeeds, no exception reaches the outer
handler. -/
theorem indexLoop_raised_false {dE : γ → Option Dv} {sE : γ → Option Sv}
    {upload : List (PointStruct γ μ Dv Sv) → Except ε Unit}
    (hup : ∀ pts, upload pts = Except.ok ()) :
    ∀ (bl : List (List (Document γ μ))) (inv : Nat)
      (ups : List (List (PointStruct γ μ Dv Sv))) (n : Nat),
      (indexLoop dE sE upload bl inv ups n).raised = false := by
  intro bl
  induction bl with
  | nil => intro inv ups n; simp [indexLoop]
  | cons b bl ih =>
    intro inv ups n
    rcases eq_or_ne (batchPoints dE sE b) [] with hb | hb
    · rw [indexLoop_cons_empty hb]; exact ih _ _ _
    · rw [indexLoop_cons_ok hb (hup _)]; exact ih _ _ _

/-- A run of the batch loop in which some upload call raised stops at the
first raising batch: the outcome reports failure and reflects only the
batches before the stop. -/
theorem indexLoop_error {dE : γ → Option Dv} {sE : γ → Option Sv}
    {upload : List (PointStruct γ μ Dv Sv) → Except ε Unit} :
    ∀ (bl : List (List (Document γ μ))) (inv : Nat)
      (ups : List (List (PointStruct γ μ Dv Sv))) (n : Nat),
      (indexLoop dE sE upload bl inv ups n).raised = true →
      ∃ j, j < bl.length ∧
        indexLoop dE sE upload bl inv ups n =
          ⟨false, ups ++ uploadsOf dE sE (bl.take j),
            inv + invalidSum dE sE (bl.take (j + 1)), n + (j + 1), true⟩ := by
  intro bl
  induction bl with
  | nil => intro inv ups n hr; simp [indexLoop] at hr
  | cons b bl ih =>
    intro inv ups n hr
    rcases eq_or_ne (batchPoints dE sE b) [] with hb | hb
    · rw [indexLoop_cons_empty hb] at hr ⊢
      obtain ⟨j, hj, heq⟩ := ih _ _ _ hr
      refine ⟨j + 1, by simpa using Nat.succ_lt_succ hj, ?_⟩
      rw [heq, List.take_succ_cons, List.take_succ_cons,
        uploadsOf_cons_empty hb, invalidSum_cons]
      simp [Nat.add_assoc, Nat.add_comm, Nat.add_left_comm]
    · cases hu : upload (batchPoints dE sE b) with
      | ok u =>
        rw [indexLoop_cons_ok hb hu] at hr ⊢
        obtain ⟨j, hj, heq⟩ := ih _ _ _ hr
        refine ⟨j + 1, by simpa using Nat.succ_lt_succ hj, ?_⟩
        rw [heq, List.take_succ_cons, List.take_succ_cons,
          uploadsOf_cons_ne hb, invalidSum_cons]
        simp [Nat.add_assoc, Nat.add_comm, Nat.add_left_comm]
      | error e =>
        rw [indexLoop_cons_error hb hu] at hr ⊢
        refine ⟨0, by simp, ?_⟩
        have h0 : List.take 0 (b :: bl) = [] := rfl
        have h1 : List.take 1 (b :: bl) = [b] := rfl
        rw [h0, h1]
        simp [uploadsOf, invalidSum]

theorem mkPoint_isNone (dE : γ → Option Dv) (sE : γ → Option Sv)
    (doc : Document γ μ) :
    (mkPoint dE sE doc).isNone =
      ((dE doc.page_content).isNone || (sE doc.page_content).isNone) := by
  unfold mkPoint
  cases dE doc.page_content <;> cases sE doc.page_content <;> rfl

theorem flatten_filter_not_isEmpty (L : List (List β)) :
    (L.filter (fun l => !l.isEmpty)).flatten = L.flatten := by
  induction L with
  | nil => rfl
  | cons a L ih =>
    by_cases h : a.isEmpty
    · have ha : a = [] := List.isEmpty_iff.mp h
      subst ha
      simp [List.filter_cons, ih]
    · have ha : a.isEmpty = false := Bool.eq_false_iff.mpr h
      simp [List.filter_cons, ha, ih]

theorem filterMap_mkPoint_payload (dE : γ → Option Dv) (sE : γ → Option Sv)
    (l : List (Document γ μ)) :
    (l.filterMap (mkPoint dE sE)).map (fun p => (p.content, p.metadata)) =
      (l.filter (fun doc =>
        (dE doc.page_content).isSome && (sE doc.page_content).isSome)).map
        (fun doc => (doc.page_content, doc.metadata)) := by
  induction l with
  | nil => rfl
  | cons doc l ih =>
    rw [List.filterMap_cons, List.filter_cons]
    cases hd : dE doc.page_content <;> cases hs : sE doc.page_content <;>
      simp [mkPoint, hd, hs, ih]

/-- Claim C1: with a positive batch size and no upload exception, a chunk
contributes an uploaded point iff both its dense and sparse embedding were
computed without an exception (the uploaded payloads are exactly those of
the chunks for which both oracles returned a value, in order, and every
uploaded point was built by `mkPoint`, which pairs both present vectors),
and the final `invalid_chunks` count is exactly the number of chunks for
which at least one modality failed. -/
theorem index_uploaded_iff_both_embeddings
    (dE : γ → Option Dv) (sE : γ → Option Sv)
    (upload : List (PointStruct γ μ Dv Sv) → Except ε Unit)
    (chunks : List (Document γ μ)) (batch_size : Nat)
    (hbs : 0 < batch_size) (hup : ∀ pts, upload pts = Except.ok ()) :
    (index_hybrid_collection dE sE upload chunks batch_size).uploads.flatten =
        chunks.filterMap (mkPoint dE sE) ∧
      ((index_hybrid_collection dE sE upload chunks
          batch_size).uploads.flatten.map (fun p => (p.content, p.metadata)) =
        (chunks.filter (fun doc =>
          (dE doc.page_content).isSome && (sE doc.page_content).isSome)).map
          (fun doc => (doc.page_content, doc.metadata))) ∧
      (index_hybrid_collection dE sE upload chunks
          batch_size).invalid_chunks =
        chunks.countP (fun doc =>
          (dE doc.page_content).isNone || (sE doc.page_content).isNone) := by
  have hr := @indexLoop_raised_false γ Dv Sv μ ε dE sE upload hup
    (batchedChunks chunks batch_size) 0 [] 0
  have hc := indexLoop_completed (batchedChunks chunks batch_size) 0 [] 0 hr
  have hflat :
      (index_hybrid_collection dE sE upload chunks batch_size).uploads.flatten
        = chunks.filterMap (mkPoint dE sE) := by
    rw [index_hybrid_collection, hc]
    show (([] ++ uploadsOf dE sE (batchedChunks chunks batch_size)) :
        List (List (PointStruct γ μ Dv Sv))).flatten = _
    rw [List.nil_append, uploadsOf, flatten_filter_not_isEmpty]
    have : ((batchedChunks chunks batch_size).map
        (batchPoints dE sE)).flatten =
        (batchedChunks chunks batch_size).flatten.filterMap
          (mkPoint dE sE) := by
      rw [List.filterMap_flatten]
      rfl
    rw [this, flatten_batchedChunks chunks batch_size hbs]
  refine ⟨hflat, ?_, ?_⟩
  · rw [hflat]
    exact filterMap_mkPoint_payload dE sE chunks
  · rw [index_hybrid_collection, hc]
    show (0 + invalidSum dE sE (batchedChunks chunks batch_size)) = _
    rw [Nat.zero_add, invalidSum]
    have hcnt : ∀ batch : List (Document γ μ),
        batchInvalid dE sE batch = batch.countP (fun doc =>
          (dE doc.page_content).isNone || (sE doc.page_content).isNone) := by
      intro batch
      rw [batchInvalid]
      exact List.countP_congr (fun doc _ => by rw [mkPoint_isNone dE sE doc])
    have : ((batchedChunks chunks batch_size).map
          (batchInvalid dE sE)).sum =
        ((batchedChunks chunks batch_size).map (List.countP (fun doc =>
          (dE doc.page_content).isNone || (sE doc.page_content).isNone))).sum := by
      congr 1
      exact List.map_congr_left (fun batch _ => hcnt batch)
    rw [this, ← List.countP_flatten, flatten_batchedChunks chunks batch_size hbs]

/-- Witness for C1 at a concrete input: three chunks with batch size 2,
where the sparse embedding of the odd chunk fails. -/
theorem index_uploaded_iff_both_embeddings_witness :
    (index_hybrid_collection (fun _ => some 0)
          (fun c => if c % 2 = 0 then some 1 else none)
          (fun _ => (Except.ok () : Except Unit Unit))
          [⟨0, 0⟩, ⟨1, 0⟩, ⟨2, 0⟩] 2).uploads.flatten =
        ([⟨0, 0⟩, ⟨1, 0⟩, ⟨2, 0⟩] : List (Document Nat Nat)).filterMap
          (mkPoint (fun _ => some 0) (fun c => if c % 2 = 0 then some 1 else none)) ∧
      ((index_hybrid_collection (fun _ => some 0)
          (fun c => if c % 2 = 0 then some 1 else none)
          (fun _ => (Except.ok () : Except Unit Unit))
          [⟨0, 0⟩, ⟨1, 0⟩, ⟨2, 0⟩] 2).uploads.flatten.map
            (fun p => (p.content, p.metadata)) =
        (([⟨0, 0⟩, ⟨1, 0⟩, ⟨2, 0⟩] : List (Document Nat Nat)).filter (fun doc =>
          ((fun _ : Nat => some 0) doc.page_content).isSome &&
            ((fun c : Nat => if c % 2 = 0 then some 1 else none)
              doc.page_content).isSome)).map
          (fun doc => (doc.page_content, doc.metadata))) ∧
      (index_hybrid_collection (fun _ => some 0)
          (fun c => if c % 2 = 0 then some 1 else none)
          (fun _ => (Except.ok () : Except Unit Unit))
          [⟨0, 0⟩, ⟨1, 0⟩, ⟨2, 0⟩] 2).invalid_chunks =
        ([⟨0, 0⟩, ⟨1, 0⟩, ⟨2, 0⟩] : List (Document Nat Nat)).countP (fun doc =>
          ((fun _ : Nat => some 0) doc.page_content).isNone ||
            ((fun c : Nat => if c % 2 = 0 then some 1 else none)
              doc.page_content).isNone) :=
  index_uploaded_iff_both_embeddings (fun _ => some 0)
    (fun c => if c % 2 = 0 then some 1 else none)
    (fun _ => (Except.ok () : Except Unit Unit))
    [⟨0, 0⟩, ⟨1, 0⟩, ⟨2, 0⟩] 2 (by decide) (fun _ => rfl)

/-- Claim C3: `index_hybrid_collection` returns `True` iff no chunk was
skipped for a failed embedding; when an exception escapes the outer batch
loop (an upload call raised), the call stops at the raising batch — the
outcome reflects only the batches up to and including it, with no later
batch processed — and reports `False` for the entire call. -/
theorem index_return_value
    (dE : γ → Option Dv) (sE : γ → Option Sv)
    (upload : List (PointStruct γ μ Dv Sv) → Except ε Unit)
    (chunks : List (Document γ μ)) (batch_size : Nat) :
    ((index_hybrid_collection dE sE upload chunks batch_size).raised = false →
      ((index_hybrid_collection dE sE upload chunks batch_size).success = true ↔
        (index_hybrid_collection dE sE upload chunks
          batch_size).invalid_chunks = 0)) ∧
    ((index_hybrid_collection dE sE upload chunks batch_size).raised = true →
      (index_hybrid_collection dE sE upload chunks batch_size).success = false ∧
      ∃ j, j < (batchedChunks chunks batch_size).length ∧
        index_hybrid_collection dE sE upload chunks batch_size =
          ⟨false, uploadsOf dE sE ((batchedChunks chunks batch_size).take j),
            invalidSum dE sE ((batchedChunks chunks batch_size).take (j + 1)),
            j + 1, true⟩) := by
  constructor
  · intro hr
    rw [index_hybrid_collection] at hr
    have hc := indexLoop_completed (batchedChunks chunks batch_size) 0 [] 0 hr
    rw [index_hybrid_collection, hc]
    simp
  · intro hr
    rw [index_hybrid_collection] at hr
    obtain ⟨j, hj, heq⟩ :=
      indexLoop_error (batchedChunks chunks batch_size) 0 [] 0 hr
    refine ⟨by rw [index_hybrid_collection, heq], j, hj, ?_⟩
    rw [index_hybrid_collection, heq]
    simp

/-- Witness for C3 at a concrete input: every upload call raises, so the
call reports failure. -/
theorem index_return_value_witness :
    (index_hybrid_collection (fun _ : Nat => some 0) (fun _ : Nat => some 0)
        (fun _ => (Except.error 0 : Except Nat Unit))
        ([⟨0, 0⟩, ⟨1, 0⟩, ⟨2, 0⟩] : List (Document Nat Nat)) 2).success =
      false :=
  ((index_return_value (fun _ : Nat => some 0) (fun _ : Nat => some 0)
      (fun _ => (Except.error 0 : Except Nat Unit))
      ([⟨0, 0⟩, ⟨1, 0⟩, ⟨2, 0⟩] : List (Document Nat Nat)) 2).2 (by decide)).1

/-! ### The spec's 130-chunk example scenario (claim C4) -/

/-- The 130 chunks of the scenario; chunk i is modelled with page content i.
-/
def scenarioChunks : List (Document Nat Nat) :=
  (List.range 130).map (fun i => ⟨i, 0⟩)

/-- Every dense embedding succeeds. -/
def scenarioDense : Nat → Option Nat := fun _ => some 0

/-- Only chunk 70's sparse embedding raises. -/
def scenarioSparse : Nat → Option Nat :=
  fun c => if c = 70 then none else some 0

/-- Every upload call succeeds. -/
def scenarioUpload : List (PointStruct Nat Nat Nat Nat) → Except Nat Unit :=
  fun _ => Except.ok ()

/-- The outcome of indexing the scenario with batch size 64. -/
def scenarioOutcome : IndexOutcome Nat Nat Nat Nat :=
  index_hybrid_collection scenarioDense scenarioSparse scenarioUpload
    scenarioChunks 64

set_option maxRecDepth 100000

/-- Claim C4 is false as stated: with 130 chunks and batch size 64 the batch
partition is 64, 64, 2 — there is no batch of 65 attempted items and the
final batch holds 2 items, not 1. -/
theorem scenario_batches_counterexample :
    ((batchedChunks scenarioChunks 64).map List.length = [64, 64, 2]) ∧
      ¬((batchedChunks scenarioChunks 64).map List.length = [64, 65, 1]) := by
  decide

/-- Claim C4 amended: indexing 130 chunks with batch size 64 where only
chunk 70's sparse embedding raises processes 3 batches of sizes 64, 64
and 2; the second batch has 64 items attempted with one failure, so 63
uploaded; the run ends with invalid count 1 and return value `False`. -/
theorem scenario_run :
    (batchedChunks scenarioChunks 64).map List.length = [64, 64, 2] ∧
      scenarioOutcome.uploads.map List.length = [64, 63, 2] ∧
      scenarioOutcome.invalid_chunks = 1 ∧
      scenarioOutcome.success = false ∧
      scenarioOutcome.processed_batches = 3 ∧
      scenarioOutcome.raised = false := by
  decide

/-! ### Qdrant query requests and the search variants

`client.query_points` is external: it is modelled as an oracle from the
request the service builds to the returned `points` list.  Scores are not
needed by any claim and are omitted from the returned points. -/

/-- `models.Fusion` (only RRF is used by the repository). -/
inductive Fusion where
  | RRF
  deriving DecidableEq

/-- `models.FieldCondition(key=..., match=models.MatchValue(value=...))`. -/
structure FieldCondition where
  key : String
  match_value : String
  deriving DecidableEq

/-- `models.Filter(must=[...])`. -/
structure Filter where
  must : List FieldCondition
  deriving DecidableEq

/-- A query vector for a named vector field. -/
inductive QueryVector (Dv Sv : Type) where
  | dense (v : Dv)
  | sparse (v : Sv)
  deriving DecidableEq

/-- `models.Prefetch(query=..., using=..., limit=...)`. -/
structure Prefetch (Dv Sv : Type) where
  query : QueryVector Dv Sv
  using_field : String
  limit : Nat
  deriving DecidableEq

/-- The `query=` argument of `query_points`: either a plain vector or a
fusion query. -/
inductive QdrantQuery (Dv Sv : Type) where
  | vec (v : QueryVector Dv Sv)
  | fusion (f : Fusion)
  deriving DecidableEq

/-- The argument record of a `client.query_points` call.  `none` in
`using_field`/`query_filter`/`limit` means the keyword was not passed. -/
structure QueryPointsRequest (Dv Sv : Type) where
  collection_name : String
  prefetch : List (Prefetch Dv Sv)
  query : QdrantQuery Dv Sv
  using_field : Option String
  query_filter : Option Filter
  limit : Option Nat
  deriving DecidableEq

/-- The document-identifier filter built by every search variant:
exact match of `metadata.pdf_id` against the requested id. -/
def pdfFilter (pdf_id : String) : Filter :=
  ⟨[⟨"metadata.pdf_id", pdf_id⟩]⟩

/-- A point as returned by `query_points` (`results.points`): the payload
metadata document identifier is the part the claims are about. -/
structure RetrievedPoint where
  content : String
  pdf_id : String
  deriving DecidableEq

/-- Payload lookup on a returned point: filter keys address the payload,
and `metadata.pdf_id` addresses the document identifier. -/
def payloadValue (p : RetrievedPoint) (key : String) : Option String :=
  if key = "metadata.pdf_id" then some p.pdf_id else none

/-- A point satisfies an exact-match condition when the addressed payload
value equals the condition's value. -/
def matchesCondition (p : RetrievedPoint) (c : FieldCondition) : Bool :=
  payloadValue p c.key == some c.match_value

/-- The request built by `HybridRagService.hybrid_search`
(hybrid_rag_service.py lines 110-126): two prefetch sub-queries (sparse
first, dense second), each limited to the requested count, fused by RRF
under the document-identifier filter, with the final limit. -/
def hybridRequest (sparse_query : Sv) (dense_query : Dv)
    (selected_pdf_id brain_id : String) (limit : Nat) :
    QueryPointsRequest Dv Sv :=
  { collection_name := brain_id
    prefetch := [⟨.sparse sparse_query, "sparse", limit⟩,
      ⟨.dense dense_query, "dense", limit⟩]
    query := .fusion .RRF
    using_field := none
    query_filter := some (pdfFilter selected_pdf_id)
    limit := some limit }

/-- `HybridRagService.hybrid_search` (lines 100-136): computes the dense
then the sparse query vector (an exception in either propagates — `none`),
issues one `query_points` call with both prefetch branches and RRF fusion,
and passes the returned points through `rerank_docs` before returning. -/
def hybrid_search (dE : String → Option Dv) (sE : String → Option Sv)
    (query_points : QueryPointsRequest Dv Sv → List RetrievedPoint)
    (rerank_docs : List RetrievedPoint → String → List RetrievedPoint)
    (query selected_pdf_id brain_id : String) (limit : Nat) :
    Option (List RetrievedPoint) :=
  match dE query, sE query with
  | some dense_query, some sparse_query =>
    some (rerank_docs
      (query_points
        (hybridRequest sparse_query dense_query selected_pdf_id brain_id limit))
      query)
  | _, _ => none

/-- The request built by `DenseRagService.dense_search`
(dense_rag_service.py lines 30-42): a single-field search on `dense` with
the document-identifier filter; no limit passed. -/
def denseSearchRequest (query : Dv) (pdf_id brain_id : String) :
    QueryPointsRequest Dv Sv :=
  { collection_name := brain_id
    prefetch := []
    query := .vec (.dense query)
    using_field := some "dense"
    query_filter := some (pdfFilter pdf_id)
    limit := none }

/-- `DenseRagService.dense_search`: the query argument is already a dense
vector (`query: List[float]`). -/
def dense_search (query_points : QueryPointsRequest Dv Sv → List RetrievedPoint)
    (query : Dv) (pdf_id brain_id : String) : List RetrievedPoint :=
  query_points (denseSearchRequest query pdf_id brain_id)

/-- The request built by `HybridRagService.sparse_search`
(hybrid_rag_service.py lines 151-162): a single-field search on `sparse`
with the document-identifier filter; no limit passed. -/
def sparseSearchRequest (sparse_query : Sv) (pdf_id brain_id : String) :
    QueryPointsRequest Dv Sv :=
  { collection_name := brain_id
    prefetch := []
    query := .vec (.sparse sparse_query)
    using_field := some "sparse"
    query_filter := some (pdfFilter pdf_id)
    limit := none }

/-- `HybridRagService.sparse_search` (lines 138-170): builds the sparse
query vector from the query text (an exception propagates — `none`) and
issues the single-field filtered search. -/
def sparse_search (sE : String → Option Sv)
    (query_points : QueryPointsRequest Dv Sv → List RetrievedPoint)
    (query pdf_id brain_id : String) : Option (List RetrievedPoint) :=
  match sE query with
  | some sparse_query =>
    some (query_points (sparseSearchRequest sparse_query pdf_id brain_id))
  | none => none

/-- Claim C5: for every query and requested limit, `hybrid_search` issues
exactly two prefetch sub-queries — one sparse and one dense, each with its
internal limit equal to the requested result count — combines them with RRF
fusion under the document-identifier filter and the requested limit,
obtains at most `limit` fused results (given a store that honors the
request limit), and passes the fused results through the reranking step
before returning them. -/
theorem hybrid_search_shape
    (dE : String → Option Dv) (sE : String → Option Sv)
    (query_points : QueryPointsRequest Dv Sv → List RetrievedPoint)
    (rerank_docs : List RetrievedPoint → String → List RetrievedPoint)
    (query selected_pdf_id brain_id : String) (limit : Nat)
    (dq : Dv) (sq : Sv)
    (hd : dE query = some dq) (hs : sE query = some sq)
    (hqp : ∀ req : QueryPointsRequest Dv Sv, ∀ n, req.limit = some n →
      (query_points req).length ≤ n) :
    (hybridRequest sq dq selected_pdf_id brain_id limit).prefetch =
        [⟨.sparse sq, "sparse", limit⟩, ⟨.dense dq, "dense", limit⟩] ∧
      (hybridRequest sq dq selected_pdf_id brain_id limit).query =
        .fusion .RRF ∧
      (hybridRequest sq dq selected_pdf_id brain_id limit).query_filter =
        some (pdfFilter selected_pdf_id) ∧
      (hybridRequest sq dq selected_pdf_id brain_id limit).limit =
        some limit ∧
      hybrid_search dE sE query_points rerank_docs query selected_pdf_id
          brain_id limit =
        some (rerank_docs
          (query_points (hybridRequest sq dq selected_pdf_id brain_id limit))
          query) ∧
      (query_points
        (hybridRequest sq dq selected_pdf_id brain_id limit)).length ≤
        limit := by
  refine ⟨rfl, rfl, rfl, rfl, ?_, hqp _ limit rfl⟩
  unfold hybrid_search
  rw [hd, hs]

/-- A store oracle that honors the request limit: it returns a fixed point
list truncated to the requested limit. -/
def truncatingStore (pts : List RetrievedPoint) :
    QueryPointsRequest Dv Sv → List RetrievedPoint :=
  fun req => pts.take (req.limit.getD pts.length)

theorem truncatingStore_bounded (pts : List RetrievedPoint) :
    ∀ req : QueryPointsRequest Dv Sv, ∀ n, req.limit = some n →
      (truncatingStore pts req).length ≤ n := by
  intro req n h
  unfold truncatingStore
  rw [h, Option.getD_some]
  exact List.length_take_le n pts

/-- Witness for C5 at a concrete input: the spec's example query with
limit 20 against a store holding one point. -/
theorem hybrid_search_shape_witness :
    (hybridRequest () () "doc-42" "brain" 20 :
        QueryPointsRequest Unit Unit).prefetch =
        [⟨.sparse (), "sparse", 20⟩, ⟨.dense (), "dense", 20⟩] ∧
      (hybridRequest () () "doc-42" "brain" 20 :
        QueryPointsRequest Unit Unit).query = .fusion .RRF ∧
      (hybridRequest () () "doc-42" "brain" 20 :
        QueryPointsRequest Unit Unit).query_filter =
        some (pdfFilter "doc-42") ∧
      (hybridRequest () () "doc-42" "brain" 20 :
        QueryPointsRequest Unit Unit).limit = some 20 ∧
      hybrid_search (fun _ => some ()) (fun _ => some ())
          (truncatingStore [⟨"refunds are...", "doc-42"⟩])
          (fun docs _ => docs) "refund policy" "doc-42" "brain" 20 =
        some ((fun docs _ => docs)
          (truncatingStore [⟨"refunds are...", "doc-42"⟩]
            (hybridRequest () () "doc-42" "brain" 20))
          "refund policy") ∧
      (truncatingStore [⟨"refunds are...", "doc-42"⟩]
        (hybridRequest () () "doc-42" "brain" 20 :
          QueryPointsRequest Unit Unit)).length ≤ 20 :=
  hybrid_search_shape (fun _ => some ()) (fun _ => some ())
    (truncatingStore [⟨"refunds are...", "doc-42"⟩]) (fun docs _ => docs)
    "refund policy" "doc-42" "brain" 20 () () rfl rfl
    (truncatingStore_bounded [⟨"refunds are...", "doc-42"⟩])

/-- Claim C6: the dense and the sparse single-field search each attach the
exact-match filter `metadata.pdf_id = pdf_id` to the request they issue,
so — for a store that honors must-filters — no returned point's metadata
document id differs from the query's. -/
theorem single_field_search_filter
    (sE : String → Option Sv)
    (query_points : QueryPointsRequest Dv Sv → List RetrievedPoint)
    (dq : Dv) (sq : Sv) (query pdf_id brain_id : String)
    (hs : sE query = some sq)
    (hqp : ∀ req : QueryPointsRequest Dv Sv, ∀ p ∈ query_points req,
      ∀ f, req.query_filter = some f →
        ∀ c ∈ f.must, matchesCondition p c = true) :
    (denseSearchRequest dq pdf_id brain_id :
        QueryPointsRequest Dv Sv).query_filter = some (pdfFilter pdf_id) ∧
      (∀ p ∈ dense_search query_points dq pdf_id brain_id,
        p.pdf_id = pdf_id) ∧
      (sparseSearchRequest sq pdf_id brain_id :
        QueryPointsRequest Dv Sv).query_filter = some (pdfFilter pdf_id) ∧
      (sparse_search sE query_points query pdf_id brain_id =
        some (query_points (sparseSearchRequest sq pdf_id brain_id))) ∧
      (∀ p ∈ query_points
          (sparseSearchRequest sq pdf_id brain_id :
            QueryPointsRequest Dv Sv),
        p.pdf_id = pdf_id) := by
  have hmatch : ∀ p : RetrievedPoint,
      matchesCondition p ⟨"metadata.pdf_id", pdf_id⟩ = true →
        p.pdf_id = pdf_id := by
    intro p hp
    simpa [matchesCondition, payloadValue] using hp
  refine ⟨rfl, ?_, rfl, ?_, ?_⟩
  · intro p hp
    exact hmatch p
      (hqp _ p hp (pdfFilter pdf_id) rfl ⟨"metadata.pdf_id", pdf_id⟩
        (List.mem_singleton.mpr rfl))
  · unfold sparse_search
    rw [hs]
  · intro p hp
    exact hmatch p
      (hqp _ p hp (pdfFilter pdf_id) rfl ⟨"metadata.pdf_id", pdf_id⟩
        (List.mem_singleton.mpr rfl))

/-- A store oracle that honors must-filters: it returns the points of a
fixed list that satisfy every condition of the request's filter. -/
def filteringStore (pts : List RetrievedPoint) :
    QueryPointsRequest Dv Sv → List RetrievedPoint :=
  fun req => pts.filter (fun p =>
    match req.query_filter with
    | some f => f.must.all (matchesCondition p)
    | none => true)

theorem filteringStore_respects (pts : List RetrievedPoint) :
    ∀ req : QueryPointsRequest Dv Sv, ∀ p ∈ filteringStore pts req,
      ∀ f, req.query_filter = some f →
        ∀ c ∈ f.must, matchesCondition p c = true := by
  intro req p hp f hf c hc
  unfold filteringStore at hp
  rw [hf] at hp
  have h2 := (List.mem_filter.mp hp).2
  exact List.all_eq_true.mp h2 c hc

/-- A concrete two-point filtering store over `Nat` vectors, where one
point belongs to another document. -/
def wStore : QueryPointsRequest Nat Nat → List RetrievedPoint :=
  filteringStore [⟨"a", "doc-42"⟩, ⟨"b", "doc-7"⟩]

/-- Witness for C6 at a concrete input: a two-point store where one point
belongs to another document. -/
theorem single_field_search_filter_witness :
    (denseSearchRequest 0 "doc-42" "brain" :
        QueryPointsRequest Nat Nat).query_filter =
        some (pdfFilter "doc-42") ∧
      (∀ p ∈ dense_search wStore 0 "doc-42" "brain", p.pdf_id = "doc-42") ∧
      (sparseSearchRequest 1 "doc-42" "brain" :
        QueryPointsRequest Nat Nat).query_filter =
        some (pdfFilter "doc-42") ∧
      (sparse_search (fun _ => some 1) wStore "refund policy" "doc-42"
          "brain" =
        some (wStore (sparseSearchRequest 1 "doc-42" "brain"))) ∧
      (∀ p ∈ wStore (sparseSearchRequest 1 "doc-42" "brain"),
        p.pdf_id = "doc-42") :=
  single_field_search_filter (fun _ => some 1) wStore 0 1 "refund policy"
    "doc-42" "brain" rfl
    (filteringStore_respects [⟨"a", "doc-42"⟩, ⟨"b", "doc-7"⟩])

/-! ### Response generation (`generate_response` of the three services)

`invoke` models `llm_manager.llm.invoke`; `Except.error` models that call
raising.  Each result carries the `logger` calls the method performs, so
catch-and-log behaviour is observable. -/

/-- `template.format(question=..., context=...)` for the fixed prompt
templates, which contain one `{question}` and one `{context}` placeholder.
-/
def format_prompt (template question context : String) : String :=
  (template.replace "{question}" question).replace "{context}" context

/-- Result of one `generate_response` call plus the log lines it wrote. -/
structure GenResult (ε : Type) where
  result : Except ε String
  log : List String

/-- `DenseRagService.generate_response` (dense_rag_service.py lines 48-55):
no try/except and no logging — an `invoke` failure propagates uncaught. -/
def DenseRagService.generate_response (invoke : String → Except ε String)
    (template question context : String) : GenResult ε :=
  { result := invoke (format_prompt template question context), log := [] }

/-- `HybridRagService.generate_response` (hybrid_rag_service.py lines
172-187): logs "response generated" on success; its `except` clause is
`raise e` — it re-raises without logging. -/
def HybridRagService.generate_response (invoke : String → Except ε String)
    (template question context : String) : GenResult ε :=
  match invoke (format_prompt template question context) with
  | Except.ok r => { result := Except.ok r, log := ["response generated"] }
  | Except.error e => { result := Except.error e, log := [] }

/-- `HyDEService.generate_response` (hyde_service.py lines 53-60): no
try/except and no logging — an `invoke` failure propagates uncaught. -/
def HyDEService.generate_response (invoke : String → Except ε String)
    (template question context : String) : GenResult ε :=
  { result := invoke (format_prompt template question context), log := [] }

/-- Claim C7 is false as stated at a concrete input: with a failing LLM
call, the hybrid variant re-raises but writes no log line, and the HyDE
variant has no except clause at all (it behaves exactly like the dense
variant), contradicting "the hybrid and HyDE variants each catch the
exception, log it, and re-raise it". -/
theorem generate_response_counterexample :
    HybridRagService.generate_response
        (fun _ => (Except.error 0 : Except Nat String)) "T {question} {context}"
        "Q" "C" =
      { result := Except.error 0, log := [] } ∧
      HyDEService.generate_response
        (fun _ => (Except.error 0 : Except Nat String)) "T {question} {context}"
        "Q" "C" =
      { result := Except.error 0, log := [] } ∧
      ¬((HybridRagService.generate_response
            (fun _ => (Except.error 0 : Except Nat String))
            "T {question} {context}" "Q" "C").log ≠ [] ∧
          (HyDEService.generate_response
            (fun _ => (Except.error 0 : Except Nat String))
            "T {question} {context}" "Q" "C").log ≠ []) := by
  refine ⟨rfl, rfl, ?_⟩
  intro h
  exact h.1 rfl

/-- Claim C7 amended: each variant returns the LLM text unmodified on
success; on failure of the underlying call, the dense and HyDE variants
let the exception propagate uncaught, while the hybrid variant catches it
and re-raises it to the caller without logging it. -/
theorem generate_response_variants (invoke : String → Except ε String)
    (template question context : String) :
    (∀ r, invoke (format_prompt template question context) = Except.ok r →
      (DenseRagService.generate_response invoke template question
          context).result = Except.ok r ∧
        (HybridRagService.generate_response invoke template question
          context).result = Except.ok r ∧
        (HyDEService.generate_response invoke template question
          context).result = Except.ok r) ∧
      (∀ e, invoke (format_prompt template question context) =
          Except.error e →
        DenseRagService.generate_response invoke template question context =
            { result := Except.error e, log := [] } ∧
          HybridRagService.generate_response invoke template question
              context =
            { result := Except.error e, log := [] } ∧
          HyDEService.generate_response invoke template question context =
            { result := Except.error e, log := [] }) := by
  constructor
  · intro r h
    refine ⟨?_, ?_, ?_⟩
    · unfold DenseRagService.generate_response
      rw [h]
    · unfold HybridRagService.generate_response
      rw [h]
    · unfold HyDEService.generate_response
      rw [h]
  · intro e h
    refine ⟨?_, ?_, ?_⟩
    · unfold DenseRagService.generate_response
      rw [h]
    · unfold HybridRagService.generate_response
      rw [h]
    · unfold HyDEService.generate_response
      rw [h]

/-- Witness for C7: both branches applied at concrete inputs. -/
theorem generate_response_variants_witness :
    ((DenseRagService.generate_response
          (fun _ => (Except.ok "A" : Except Nat String)) "T" "Q" "C").result =
        Except.ok "A" ∧
      (HybridRagService.generate_response
          (fun _ => (Except.ok "A" : Except Nat String)) "T" "Q" "C").result =
        Except.ok "A" ∧
      (HyDEService.generate_response
          (fun _ => (Except.ok "A" : Except Nat String)) "T" "Q" "C").result =
        Except.ok "A") ∧
      (DenseRagService.generate_response
          (fun _ => (Except.error 7 : Except Nat String)) "T" "Q" "C" =
        { result := Except.error 7, log := [] } ∧
        HybridRagService.generate_response
            (fun _ => (Except.error 7 : Except Nat String)) "T" "Q" "C" =
          { result := Except.error 7, log := [] } ∧
        HyDEService.generate_response
            (fun _ => (Except.error 7 : Except Nat String)) "T" "Q" "C" =
          { result := Except.error 7, log := [] }) :=
  ⟨(generate_response_variants (fun _ => (Except.ok "A" : Except Nat String))
      "T" "Q" "C").1 "A" rfl,
    (generate_response_variants
      (fun _ => (Except.error 7 : Except Nat String)) "T" "Q" "C").2 7 rfl⟩

/-! ### HyDEService construction and `hyde_search` (claim C8)

`HyDEService.__init__` (hyde_service.py lines 18-37) assigns the client,
the llm manager and the prompt template, but the creation of
`self.vector_store` and of
`self.retriever = self.vector_store.as_retriever(search_type="mmr")` is
commented out, so the `retriever` attribute is never assigned.  Python
raises `AttributeError` on access to a never-assigned instance attribute. -/

/-- A Python exception as observed by a caller. -/
inductive PyError where
  | attributeError (name : String)
  deriving DecidableEq

/-- The attributes of a `HyDEService` instance that `hyde_search` touches:
`none` models an attribute that was never assigned. -/
structure HyDEServiceState (ρ : Type) where
  retriever : Option ρ

/-- The state `HyDEService.__init__` produces: the retriever assignment is
commented out, so the attribute is absent. -/
def HyDEService.init : HyDEServiceState ρ := { retriever := none }

/-- `HyDEService.hyde_search` (lines 46-51): `self.retriever.invoke(query)`
— the attribute access raises when the attribute is absent. -/
def HyDEService.hyde_search (invoke : ρ → String → List RetrievedPoint)
    (s : HyDEServiceState ρ) (query : String) :
    Except PyError (List RetrievedPoint) :=
  match s.retriever with
  | some r => Except.ok (invoke r query)
  | none => Except.error (PyError.attributeError "retriever")

/-- Claim C8 (code bug): on the service as `__init__` constructs it, every
`hyde_search` call raises `AttributeError` instead of issuing the
MMR-retriever query, because the retriever initialization is commented
out. -/
theorem hyde_search_attribute_error
    (invoke : ρ → String → List RetrievedPoint) (query : String) :
    HyDEService.hyde_search invoke HyDEService.init query =
      Except.error (PyError.attributeError "retriever") := rfl

/-! ### QdrantClientManager (claims C9, C10)

The class (qdrantclient.py) defines no `__init__` and no class attributes:
`self.client` and `self.logger` are never assigned anywhere, so the first
attribute access raises `AttributeError`. -/

/-- Attribute state of a `QdrantClientManager` instance.  The outer
`Option` is attribute presence (`none` = never assigned); for `client` the
inner `Option` is the Python value (`None` or a client handle). -/
structure ManagerState (κ : Type) where
  client : Option (Option κ)
  logger : Option Unit

/-- A freshly constructed `QdrantClientManager()`: no `__init__` runs, so
no instance attribute exists. -/
def QdrantClientManager.new : ManagerState κ :=
  { client := none, logger := none }

/-- `QdrantClientManager.get_client` (lines 7-17): tests
`self.client is None`, creating the client from the configured URL
(`mkClient`) on first use and logging.  Accessing the absent `client`
attribute raises; after a creation, the `self.logger.info` access raises
too — but only after `self.client` has already been assigned.  Returns the
updated attribute state and the call's outcome. -/
def QdrantClientManager.get_client (mkClient : Unit → κ)
    (s : ManagerState κ) : ManagerState κ × Except PyError κ :=
  match s.client with
  | none => (s, Except.error (PyError.attributeError "client"))
  | some none =>
    let c := mkClient ()
    let s' : ManagerState κ := { s with client := some (some c) }
    match s'.logger with
    | none => (s', Except.error (PyError.attributeError "logger"))
    | some _ => (s', Except.ok c)
  | some (some c) => (s, Except.ok c)

/-- `models.Distance` (only COSINE is used by the repository). -/
inductive Distance where
  | COSINE
  deriving DecidableEq

/-- `models.VectorParams(size=..., distance=...)`. -/
structure VectorParams where
  size : Nat
  distance : Distance
  deriving DecidableEq

/-- The configuration a collection was created with: named dense vector
fields and named sparse vector fields. -/
structure CollectionConfig where
  vectors_config : List (String × VectorParams)
  sparse_vectors_config : List String
  deriving DecidableEq

/-- The Qdrant server's collections, by name, with creation config. -/
structure QdrantWorld where
  collections : List (String × CollectionConfig)
  deriving DecidableEq

/-- `client.collection_exists(collection_name=...)`. -/
def collection_exists (w : QdrantWorld) (name : String) : Bool :=
  w.collections.any (fun nc => nc.1 == name)

/-- The configuration hard-coded by `_create_collection` (lines 35-53):
one dense vector field of size 384 with cosine distance and one sparse
vector field. -/
def hybridConfig : CollectionConfig :=
  { vectors_config := [("dense", ⟨384, Distance.COSINE⟩)]
    sparse_vectors_config := ["sparse"] }

/-- `QdrantClientManager._create_collection`: the
`client.create_collection` call with the hard-coded hybrid configuration.
-/
def create_collection (w : QdrantWorld) (name : String) : QdrantWorld :=
  { collections := w.collections ++ [(name, hybridConfig)] }

/-- `QdrantClientManager.create_hybrid_collection` (lines 19-33): gets the
client (an exception propagates), checks existence of the configured
collection by name, creates it only when absent, then logs — the absent
`logger` attribute raises, but only after the creation already happened. -/
def QdrantClientManager.create_hybrid_collection (mkClient : Unit → κ)
    (hybrid_collection : String) (s : ManagerState κ) (w : QdrantWorld) :
    ManagerState κ × QdrantWorld × Except PyError Unit :=
  match QdrantClientManager.get_client mkClient s with
  | (s', Except.error e) => (s', w, Except.error e)
  | (s', Except.ok _) =>
    if collection_exists w hybrid_collection then
      match s'.logger with
      | none => (s', w, Except.error (PyError.attributeError "logger"))
      | some _ => (s', w, Except.ok ())
    else
      let w' := create_collection w hybrid_collection
      match s'.logger with
      | none => (s', w', Except.error (PyError.attributeError "logger"))
      | some _ => (s', w', Except.ok ())

/-- Claim C9 (code bug): the class has no `__init__`, so on the first
`get_client` call of a fresh manager the `self.client is None` test raises
`AttributeError` — no client is created or returned, contradicting the
create-on-first-use contract. -/
theorem get_client_attribute_error (mkClient : Unit → κ) :
    QdrantClientManager.get_client mkClient QdrantClientManager.new =
      (QdrantClientManager.new,
        Except.error (PyError.attributeError "client")) := rfl

/-- The attribute state the docstrings evidently intend `__init__` to
produce: `self.client = None` and a logger assigned. -/
def intendedInit : ManagerState κ := { client := some none, logger := some () }

/-- Claim C10 (code bug): on the manager as actually constructed, the
first and the second `create_hybrid_collection` call both raise
`AttributeError` inside `get_client` before any existence check, and no
collection is ever created — calling twice yields zero collections, not
one.  With the evidently intended attribute initialization the
existence-check guard does make the call idempotent: two calls yield
exactly one collection, configured with one dense vector field of size 384
and cosine distance and one sparse vector field. -/
theorem create_hybrid_collection_twice (mkClient : Unit → κ)
    (name : String) :
    ((QdrantClientManager.create_hybrid_collection mkClient name
        QdrantClientManager.new ⟨[]⟩).2.2 =
        Except.error (PyError.attributeError "client") ∧
      (QdrantClientManager.create_hybrid_collection mkClient name
        QdrantClientManager.new ⟨[]⟩).2.1 = ⟨[]⟩ ∧
      (QdrantClientManager.create_hybrid_collection mkClient name
          (QdrantClientManager.create_hybrid_collection mkClient name
            QdrantClientManager.new ⟨[]⟩).1
          (QdrantClientManager.create_hybrid_collection mkClient name
            QdrantClientManager.new ⟨[]⟩).2.1).2.2 =
        Except.error (PyError.attributeError "client") ∧
      (QdrantClientManager.create_hybrid_collection mkClient name
          (QdrantClientManager.create_hybrid_collection mkClient name
            QdrantClientManager.new ⟨[]⟩).1
          (QdrantClientManager.create_hybrid_collection mkClient name
            QdrantClientManager.new ⟨[]⟩).2.1).2.1 = ⟨[]⟩) ∧
    ((QdrantClientManager.create_hybrid_collection mkClient name
        intendedInit ⟨[]⟩).2.2 = Except.ok () ∧
      (QdrantClientManager.create_hybrid_collection mkClient name
          (QdrantClientManager.create_hybrid_collection mkClient name
            intendedInit ⟨[]⟩).1
          (QdrantClientManager.create_hybrid_collection mkClient name
            intendedInit ⟨[]⟩).2.1).2.2 = Except.ok () ∧
      (QdrantClientManager.create_hybrid_collection mkClient name
          (QdrantClientManager.create_hybrid_collection mkClient name
            intendedInit ⟨[]⟩).1
          (QdrantClientManager.create_hybrid_collection mkClient name
            intendedInit ⟨[]⟩).2.1).2.1.collections =
        [(name, hybridConfig)]) := by
  refine ⟨⟨rfl, rfl, rfl, rfl⟩, ?_, ?_, ?_⟩
  · rfl
  · simp [QdrantClientManager.create_hybrid_collection,
      QdrantClientManager.get_client, intendedInit, collection_exists,
      create_collection]
  · simp [QdrantClientManager.create_hybrid_collection,
      QdrantClientManager.get_client, intendedInit, collection_exists,
      create_collection]

end RAGEval
